import Mathlib

/-!
Shallow embedding of the Deolang execution core (the `GridMap` class and the
`Interpreter` class of this repository) together with proofs about it.

Modelling conventions used throughout:
* A grid cell is `Option Nat`: `some c` is a one-character cell holding the
  character with code point `c`, and `none` is the empty sentinel (the Python
  empty string).
* Python lists used as stacks push and pop at the tail; here stacks are Lean
  lists with the top at the head.  The `output` list keeps its natural
  (append) order.
* Python exceptions are `Except` errors.  An opcode handler returns
  `Except State (OpRes × State)`: the error case carries the interpreter
  state as mutated before the exception was raised, since Python mutates
  `self` in place.
* Nondeterministic effects (random direction, wall clock, the host input
  callback, the file system used by merge) are supplied by an `Oracle`
  consulted at an index `tick` stored in the state.
-/

/-- Code point of a grid cell; `none` models the empty-string sentinel. -/
abbrev Cell := Option Nat

/-- Result of the Python built-in `chr`: valid for code points 0..0x10FFFF,
otherwise it raises `ValueError`. -/
def pyChr (v : Int) : Option Nat :=
  if 0 ≤ v ∧ v ≤ 1114111 then some v.toNat else none

/-- Python sequence index resolution: non-negative indices address from the
front, negative indices wrap from the back, out-of-range raises `IndexError`
(modelled as `none`). -/
def pyIdx (len : Nat) (i : Int) : Option Nat :=
  if 0 ≤ i then
    if i.toNat < len then some i.toNat else none
  else
    if (-i).toNat ≤ len then some (len - (-i).toNat) else none

/-- Python list element assignment `l[i] = a` (with wrap-around for negative
indices, `IndexError` as `none`). -/
def pyListSet {α : Type} (l : List α) (i : Int) (a : α) : Option (List α) :=
  (pyIdx l.length i).map (fun j => l.set j a)

/-- The `GridMap` class: a resizable 2D character map.  Only the cell matrix
is stored; the `rows` and `cols` attributes of the Python object always equal
the matrix dimensions (they are recomputed by `_ensure_size` and set by the
constructor). -/
structure GridMap where
  map : List (List Cell)
deriving DecidableEq, Repr

namespace GridMap

/-- Current number of columns: `len(self._map[0]) if rows > 0 else 0`. -/
def width (g : GridMap) : Nat :=
  match g.map with
  | [] => 0
  | r :: _ => r.length

/-- Constructor from already-split rows of characters (the `content` path of
`GridMap.__init__` after `splitlines` and `rstrip`): the matrix is `rows`
lines padded with the empty sentinel to the maximal line length. -/
def ofRows (rows : List (List Nat)) : GridMap :=
  let cols := rows.foldr (fun r acc => max r.length acc) 0
  ⟨rows.map (fun r => (r.map (fun c => (some c : Cell))) ++ List.replicate (cols - r.length) (none : Cell))⟩

/-- Mirrors `GridMap.get_item`: the cell if `0 <= y < rows` and
`0 <= x < len(row y)`, else the empty sentinel; never faults. -/
def get_item (g : GridMap) (x y : Int) : Cell :=
  if 0 ≤ x ∧ 0 ≤ y then
    match g.map.get? y.toNat with
    | none => none
    | some row => (row.get? x.toNat).getD none
  else none

/-- Mirrors `GridMap._ensure_size`: grow to at least `h` rows (new rows have
the current width) and then extend every row to length at least `w`. -/
def ensureSize (g : GridMap) (w h : Int) : GridMap :=
  let ch : Nat := g.map.length
  let cw : Nat := g.width
  let m1 : List (List Cell) :=
    if (ch : Int) < h then g.map ++ List.replicate (h - ch).toNat (List.replicate cw (none : Cell))
    else g.map
  let m2 : List (List Cell) :=
    if (cw : Int) < w then m1.map (fun r => r ++ List.replicate (w - r.length).toNat (none : Cell))
    else m1
  ⟨m2⟩

/-- Mirrors `GridMap.set_item`: negative coordinates are a no-op; otherwise
ensure the grid is at least `(x+1) × (y+1)` and store the character.  The
error case models an `IndexError` raised by the final assignment (only
possible on a ragged matrix); it carries the already-grown grid, since
`_ensure_size` mutates the object before the assignment. -/
def set_item (g : GridMap) (x y : Int) (cp : Nat) : Except GridMap GridMap :=
  if x < 0 ∨ y < 0 then .ok g
  else
    let g1 := g.ensureSize (x + 1) (y + 1)
    match g1.map.get? y.toNat with
    | none => .error g1
    | some row =>
      if x.toNat < row.length then
        .ok ⟨g1.map.set y.toNat (row.set x.toNat (some cp))⟩
      else .error g1

/-- One overlay write of `merge_grid`: `self._map[r + y_offset][c + x_offset] = val`
with Python index semantics on both levels. -/
def pySet2D (m : List (List Cell)) (y x : Int) (c : Cell) : Option (List (List Cell)) :=
  match pyIdx m.length y with
  | none => none
  | some yi =>
    match m.get? yi with
    | none => none
    | some row =>
      match pyListSet row x c with
      | none => none
      | some row2 => some (m.set yi row2)

/-- Sequential overlay writes; an `IndexError` stops the loop and (like the
`except` in `merge_grid`) keeps the writes already performed. -/
def doWrites : List (List Cell) → List (Int × Int × Cell) → Bool × List (List Cell)
  | m, [] => (true, m)
  | m, (yw, xw, c) :: rest =>
    match pySet2D m yw xw c with
    | none => (false, m)
    | some m2 => doWrites m2 rest

/-- Mirrors `GridMap.merge_grid`: load the overlay from the file system
(failure to load returns `false` with the grid unchanged), grow the grid,
then copy every non-empty overlay cell at the offset position. -/
def merge_grid (files : List Nat → Option (List (List Nat)))
    (g : GridMap) (fname : List Nat) (xoff yoff : Int) : Bool × GridMap :=
  match files fname with
  | none => (false, g)
  | some raw =>
    let other := GridMap.ofRows raw
    let h := other.map.length
    let w := other.width
    let g1 := g.ensureSize (xoff + w) (yoff + h)
    let writes : List (Int × Int × Cell) :=
      (List.range h).flatMap (fun r =>
        (List.range w).filterMap (fun c =>
          match (((other.map.get? r).getD []).get? c).getD none with
          | none => none
          | some v => some ((r : Int) + yoff, (c : Int) + xoff, (some v : Cell))))
    let res := doWrites g1.map writes
    (res.1, ⟨res.2⟩)

/-- Python truthiness of a `GridMap`: `__len__` returns `rows * cols`, so a
grid with zero cells is falsy. -/
def truthy (g : GridMap) : Bool :=
  g.map.length * g.width != 0

end GridMap

/-- Value held in the `built_in_input` attribute.  The constructor stores
`None` or a host callback; `set_input` later overwrites it with the Python
booleans `False` or `True`. -/
inductive BII
  | noneB
  | func
  | boolTrue
  | boolFalse
deriving DecidableEq, Repr

/-- Value returned by the host input callback: a string (as code points), an
integer, or anything else. -/
inductive HostResp
  | str (cs : List Nat)
  | int (n : Int)
  | other
deriving DecidableEq, Repr

/-- Environment for the effectful opcodes: random direction choices, the
wall clock, the host input callback, and the file system used by `M`. -/
structure Oracle where
  rand : Nat → Fin 4
  time : Nat → Int
  callback : Nat → HostResp
  files : List Nat → Option (List (List Nat))

/-- Full dynamic state of the `Interpreter` object. -/
structure State where
  program : Option GridMap
  stack : List Int
  addition_stack : List Int
  output : List (List Nat)
  call_stack : List (Int × Int)
  heap : List (Int × Int)
  x : Int
  y : Int
  direction : Int × Int
  ignore_mode : Bool
  string_mode : Bool
  input : Option (List Nat)
  input_pointer : Int
  built_in_input : BII
  tick : Nat
deriving DecidableEq, Repr

/-- Outcome signalled by an opcode handler: `None` (fall through to the move),
`False` (halt), or the string `"JUMPED"`. -/
inductive OpRes
  | norm
  | halt
  | jumped
deriving DecidableEq, Repr

namespace Interpreter

/-- Values of the `DIRECTIONS` table in insertion order (up, right, left,
down), as listed by `random.choice(list(DIRECTIONS.values()))`. -/
def DIRECTIONS : List (Int × Int) := [(0, -1), (1, 0), (-1, 0), (0, 1)]

/-- The `TURN_RIGHT` table; defined only on the four unit vectors (any other
key would raise `KeyError`). -/
def TURN_RIGHT (d : Int × Int) : Option (Int × Int) :=
  if d = (0, -1) then some (1, 0)
  else if d = (1, 0) then some (0, 1)
  else if d = (-1, 0) then some (0, -1)
  else if d = (0, 1) then some (-1, 0)
  else none

/-- The `TURN_LEFT` table; defined only on the four unit vectors. -/
def TURN_LEFT (d : Int × Int) : Option (Int × Int) :=
  if d = (0, -1) then some (-1, 0)
  else if d = (1, 0) then some (0, -1)
  else if d = (-1, 0) then some (0, 1)
  else if d = (0, 1) then some (1, 0)
  else none

/-- Mirrors `Interpreter.__init__` (dynamic state only; the opcode table is
the static dispatch function below). -/
def init (program_input : Option (List Nat)) (build_in_input : BII) : State :=
  { program := none
    stack := []
    addition_stack := []
    output := []
    call_stack := []
    heap := []
    x := 0
    y := 0
    direction := (1, 0)
    ignore_mode := false
    string_mode := false
    input := program_input
    input_pointer := 0
    built_in_input := build_in_input
    tick := 0 }

/-- Mirrors `Interpreter.load_code` for non-empty content given as its split
lines (empty content would raise `ValueError` in the `GridMap` constructor);
it replaces `program` and leaves all other state untouched. -/
def load_code (s : State) (rows : List (List Nat)) : State :=
  { s with program := some (GridMap.ofRows rows) }

/-- Python dictionary assignment `heap[addr] = val` on an insertion-ordered
association list: replace the binding in place or append a new one. -/
def dictSet : List (Int × Int) → Int → Int → List (Int × Int)
  | [], k, v => [(k, v)]
  | (k1, v1) :: t, k, v =>
    if k1 = k then (k, v) :: t else (k1, v1) :: dictSet t k v

/-- Python `heap.get(addr, 0)`. -/
def dictGet : List (Int × Int) → Int → Int
  | [], _ => 0
  | (k1, v1) :: t, k => if k1 = k then v1 else dictGet t k

/-- Mirrors `Interpreter.move`. -/
def move (s : State) : State :=
  { s with x := s.x + s.direction.1, y := s.y + s.direction.2 }

/-- Mirrors `Interpreter._pop_string`: pop until a 0 sentinel is consumed or
the stack empties; a popped value that is no valid code point raises in
`chr` (the error carries the stack as already popped). -/
def pop_string : List Int → Except (List Int) (List Nat × List Int)
  | [] => .ok ([], [])
  | v :: rest =>
    if v = 0 then .ok ([], rest)
    else
      match pyChr v with
      | none => .error rest
      | some cp =>
        match pop_string rest with
        | .error r => .error r
        | .ok (cs, r) => .ok (cp :: cs, r)

def op_up (s : State) : Except State (OpRes × State) :=
  .ok (.norm, { s with direction := (0, -1) })

def op_right (s : State) : Except State (OpRes × State) :=
  .ok (.norm, { s with direction := (1, 0) })

def op_left (s : State) : Except State (OpRes × State) :=
  .ok (.norm, { s with direction := (-1, 0) })

def op_down (s : State) : Except State (OpRes × State) :=
  .ok (.norm, { s with direction := (0, 1) })

/-- Element of `list(DIRECTIONS.values())` chosen by `random.choice`, in
dictionary insertion order (up, right, left, down). -/
def dirOfFin : Fin 4 → Int × Int
  | 0 => (0, -1)
  | 1 => (1, 0)
  | 2 => (-1, 0)
  | 3 => (0, 1)

def op_random_dir (o : Oracle) (s : State) : Except State (OpRes × State) :=
  .ok (.norm, { s with direction := dirOfFin (o.rand s.tick), tick := s.tick + 1 })

def op_add (s : State) : Except State (OpRes × State) :=
  match s.stack with
  | b :: a :: rest => .ok (.norm, { s with stack := (b + a) :: rest })
  | _ => .ok (.norm, s)

def op_sub (s : State) : Except State (OpRes × State) :=
  match s.stack with
  | b :: a :: rest => .ok (.norm, { s with stack := (a - b) :: rest })
  | _ => .ok (.norm, s)

def op_mul (s : State) : Except State (OpRes × State) :=
  match s.stack with
  | b :: a :: rest => .ok (.norm, { s with stack := (b * a) :: rest })
  | _ => .ok (.norm, s)

def op_div (s : State) : Except State (OpRes × State) :=
  match s.stack with
  | b :: a :: rest => .ok (.norm, { s with stack := (if b = 0 then 0 else Int.fdiv a b) :: rest })
  | _ => .ok (.norm, s)

def op_mod (s : State) : Except State (OpRes × State) :=
  match s.stack with
  | b :: a :: rest => .ok (.norm, { s with stack := (if b = 0 then 0 else Int.fmod a b) :: rest })
  | _ => .ok (.norm, s)

def op_and (s : State) : Except State (OpRes × State) :=
  match s.stack with
  | b :: a :: rest => .ok (.norm, { s with stack := (Int.land b a) :: rest })
  | _ => .ok (.norm, s)

def op_or (s : State) : Except State (OpRes × State) :=
  match s.stack with
  | b :: a :: rest => .ok (.norm, { s with stack := (Int.lor b a) :: rest })
  | _ => .ok (.norm, s)

def op_xor (s : State) : Except State (OpRes × State) :=
  match s.stack with
  | b :: a :: rest => .ok (.norm, { s with stack := (Int.xor b a) :: rest })
  | _ => .ok (.norm, s)

def op_not (s : State) : Except State (OpRes × State) :=
  match s.stack with
  | a :: rest => .ok (.norm, { s with stack := (~~~a) :: rest })
  | _ => .ok (.norm, s)

def op_eq (s : State) : Except State (OpRes × State) :=
  match s.stack with
  | b :: a :: rest => .ok (.norm, { s with stack := (if b = a then 1 else 0) :: rest })
  | _ => .ok (.norm, s)

def op_less (s : State) : Except State (OpRes × State) :=
  match s.stack with
  | b :: a :: rest => .ok (.norm, { s with stack := (if a < b then 1 else 0) :: rest })
  | _ => .ok (.norm, s)

def op_greater (s : State) : Except State (OpRes × State) :=
  match s.stack with
  | b :: a :: rest => .ok (.norm, { s with stack := (if b < a then 1 else 0) :: rest })
  | _ => .ok (.norm, s)

def op_pop (s : State) : Except State (OpRes × State) :=
  match s.stack with
  | _ :: rest => .ok (.norm, { s with stack := rest })
  | [] => .ok (.norm, s)

def op_swap (s : State) : Except State (OpRes × State) :=
  match s.stack with
  | b :: a :: rest => .ok (.norm, { s with stack := a :: b :: rest })
  | _ => .ok (.norm, s)

def op_copy (s : State) : Except State (OpRes × State) :=
  match s.stack with
  | a :: rest => .ok (.norm, { s with stack := a :: a :: rest })
  | [] => .ok (.norm, s)

def op_move_to_aux (s : State) : Except State (OpRes × State) :=
  match s.stack with
  | a :: rest => .ok (.norm, { s with stack := rest, addition_stack := a :: s.addition_stack })
  | [] => .ok (.norm, s)

def op_move_from_aux (s : State) : Except State (OpRes × State) :=
  match s.addition_stack with
  | a :: rest => .ok (.norm, { s with stack := a :: s.stack, addition_stack := rest })
  | [] => .ok (.norm, s)

def op_rotate_left (s : State) : Except State (OpRes × State) :=
  match s.stack with
  | t :: r1 :: rest => .ok (.norm, { s with stack := (r1 :: rest) ++ [t] })
  | _ => .ok (.norm, s)

def op_rotate_right (s : State) : Except State (OpRes × State) :=
  if s.stack.length > 1 then
    .ok (.norm, { s with stack := s.stack.getLastD 0 :: s.stack.dropLast })
  else .ok (.norm, s)

def op_len (s : State) : Except State (OpRes × State) :=
  .ok (.norm, { s with stack := (s.stack.length : Int) :: s.stack })

def op_clear (s : State) : Except State (OpRes × State) :=
  .ok (.norm, { s with stack := [] })

/-- Decimal representation of an integer as code points (`str(n)`). -/
def intDecimal (n : Int) : List Nat :=
  (toString n).toList.map Char.toNat

def op_print_num (s : State) : Except State (OpRes × State) :=
  match s.stack with
  | a :: rest => .ok (.norm, { s with stack := rest, output := s.output ++ [intDecimal a] })
  | [] => .ok (.norm, s)

def op_print_char (s : State) : Except State (OpRes × State) :=
  match s.stack with
  | a :: rest =>
    match pyChr a with
    | none => .error { s with stack := rest }
    | some cp => .ok (.norm, { s with stack := rest, output := s.output ++ [[cp]] })
  | [] => .ok (.norm, s)

def op_input (o : Oracle) (s : State) : Except State (OpRes × State) :=
  match s.input with
  | some (c0 :: cs) =>
    if s.input_pointer < ((c0 :: cs).length : Int) then
      match pyIdx (c0 :: cs).length s.input_pointer with
      | some i =>
        .ok (.norm, { s with stack := (((c0 :: cs).getD i 0 : Nat) : Int) :: s.stack,
                             input_pointer := s.input_pointer + 1 })
      | none => .error s
    else
      .ok (.norm, { s with stack := (-1) :: s.stack })
  | _ =>
    match s.built_in_input with
    | .func =>
      match o.callback s.tick with
      | .str (c :: _) => .ok (.norm, { s with stack := (c : Int) :: s.stack, tick := s.tick + 1 })
      | .str [] => .ok (.norm, { s with tick := s.tick + 1 })
      | .int n => .ok (.norm, { s with stack := n :: s.stack, tick := s.tick + 1 })
      | .other => .ok (.norm, { s with tick := s.tick + 1 })
    | .boolTrue => .error s
    | .boolFalse => .ok (.norm, s)
    | .noneB => .ok (.norm, s)

def op_heap_store (s : State) : Except State (OpRes × State) :=
  match s.stack with
  | addr :: val :: rest => .ok (.norm, { s with stack := rest, heap := dictSet s.heap addr val })
  | _ => .ok (.norm, s)

def op_heap_load (s : State) : Except State (OpRes × State) :=
  match s.stack with
  | a :: rest => .ok (.norm, { s with stack := dictGet s.heap a :: rest })
  | [] => .ok (.norm, s)

def op_grid_get (s : State) : Except State (OpRes × State) :=
  match s.stack with
  | yv :: xv :: rest =>
    match s.program with
    | none => .error { s with stack := rest }
    | some g =>
      let val := g.get_item xv yv
      .ok (.norm, { s with stack := ((match val with | some cp => (cp : Int) | none => 0) : Int) :: rest })
  | _ => .ok (.norm, s)

def op_grid_put (s : State) : Except State (OpRes × State) :=
  match s.stack with
  | yv :: xv :: val :: rest =>
    match s.program with
    | none => .error { s with stack := rest }
    | some g =>
      match pyChr val with
      | none => .error { s with stack := rest }
      | some cp =>
        match g.set_item xv yv cp with
        | .error g1 => .error { s with stack := rest, program := some g1 }
        | .ok g1 => .ok (.norm, { s with stack := rest, program := some g1 })
  | _ => .ok (.norm, s)

def op_jump (s : State) : Except State (OpRes × State) :=
  match s.stack with
  | yv :: xv :: rest => .ok (.jumped, { s with stack := rest, x := xv, y := yv })
  | _ => .ok (.norm, s)

def op_func_call (s : State) : Except State (OpRes × State) :=
  match s.stack with
  | yv :: xv :: rest =>
    .ok (.jumped, { s with stack := rest,
                           call_stack := (s.x + s.direction.1, s.y + s.direction.2) :: s.call_stack,
                           x := xv, y := yv })
  | _ => .ok (.norm, s)

def op_return (s : State) : Except State (OpRes × State) :=
  match s.call_stack with
  | (rx, ry) :: rest => .ok (.jumped, { s with call_stack := rest, x := rx, y := ry })
  | [] => .ok (.norm, s)

def op_merge (o : Oracle) (s : State) : Except State (OpRes × State) :=
  match s.stack with
  | yv :: xv :: rest =>
    match pop_string rest with
    | .error rest2 => .error { s with stack := rest2 }
    | .ok (fname, rest2) =>
      match s.program with
      | none => .error { s with stack := rest2 }
      | some g =>
        let res := GridMap.merge_grid o.files g fname xv yv
        .ok (.norm, { s with stack := rest2, program := some res.2 })
  | _ => .ok (.norm, s)

def op_time (o : Oracle) (s : State) : Except State (OpRes × State) :=
  .ok (.norm, { s with stack := o.time s.tick :: s.stack, tick := s.tick + 1 })

def op_wait (s : State) : Except State (OpRes × State) :=
  match s.stack with
  | a :: rest =>
    if a < 0 then .error { s with stack := rest }
    else .ok (.norm, { s with stack := rest })
  | [] => .ok (.norm, s)

def op_vertical_mirror (s : State) : Except State (OpRes × State) :=
  if s.direction = (-1, 0) ∨ s.direction = (1, 0) then
    .ok (.norm, { s with ignore_mode := true })
  else .ok (.norm, s)

def op_horizontal_mirror (s : State) : Except State (OpRes × State) :=
  if s.direction = (0, -1) ∨ s.direction = (0, 1) then
    .ok (.norm, { s with ignore_mode := true })
  else .ok (.norm, s)

def op_mirror_slash (s : State) : Except State (OpRes × State) :=
  match s.stack with
  | a :: rest =>
    match (if a = 0 then TURN_LEFT s.direction else TURN_RIGHT s.direction) with
    | none => .error { s with stack := rest }
    | some d => .ok (.norm, { s with stack := rest, direction := d })
  | [] => .ok (.norm, s)

def op_mirror_backslash (s : State) : Except State (OpRes × State) :=
  match s.stack with
  | a :: rest =>
    match (if a = 0 then TURN_RIGHT s.direction else TURN_LEFT s.direction) with
    | none => .error { s with stack := rest }
    | some d => .ok (.norm, { s with stack := rest, direction := d })
  | [] => .ok (.norm, s)

def op_exit (s : State) : Except State (OpRes × State) :=
  .ok (.halt, s)

def op_quote (s : State) : Except State (OpRes × State) :=
  .ok (.norm, { s with string_mode := true })

/-- The `self.ops` dispatch table of `Interpreter.__init__`, in insertion
order, as an association list from code points to bound handlers. -/
def ops : List (Nat × (Oracle → State → Except State (OpRes × State))) :=
  [(94, fun _ s => op_up s),
   (62, fun _ s => op_right s),
   (60, fun _ s => op_left s),
   (86, fun _ s => op_down s),
   (63, fun o s => op_random_dir o s),
   (43, fun _ s => op_add s),
   (45, fun _ s => op_sub s),
   (42, fun _ s => op_mul s),
   (58, fun _ s => op_div s),
   (37, fun _ s => op_mod s),
   (38, fun _ s => op_and s),
   (111, fun _ s => op_or s),
   (120, fun _ s => op_xor s),
   (126, fun _ s => op_not s),
   (61, fun _ s => op_eq s),
   (40, fun _ s => op_less s),
   (41, fun _ s => op_greater s),
   (80, fun _ s => op_pop s),
   (83, fun _ s => op_swap s),
   (67, fun _ s => op_copy s),
   (68, fun _ s => op_move_to_aux s),
   (85, fun _ s => op_move_from_aux s),
   (123, fun _ s => op_rotate_left s),
   (125, fun _ s => op_rotate_right s),
   (76, fun _ s => op_len s),
   (90, fun _ s => op_clear s),
   (78, fun _ s => op_print_num s),
   (65, fun _ s => op_print_char s),
   (73, fun o s => op_input o s),
   (104, fun _ s => op_heap_store s),
   (72, fun _ s => op_heap_load s),
   (103, fun _ s => op_grid_get s),
   (112, fun _ s => op_grid_put s),
   (106, fun _ s => op_jump s),
   (70, fun _ s => op_func_call s),
   (82, fun _ s => op_return s),
   (77, fun o s => op_merge o s),
   (84, fun o s => op_time o s),
   (87, fun _ s => op_wait s),
   (124, fun _ s => op_vertical_mirror s),
   (95, fun _ s => op_horizontal_mirror s),
   (47, fun _ s => op_mirror_slash s),
   (92, fun _ s => op_mirror_backslash s),
   (64, fun _ s => op_exit s),
   (34, fun _ s => op_quote s)]

/-- Membership and invocation in `self.ops`: `none` when the character is
not an opcode. -/
def execOp (o : Oracle) (s : State) (c : Nat) : Option (Except State (OpRes × State)) :=
  match ops.lookup c with
  | some f => some (f o s)
  | none => none

/-- Mirrors `Interpreter.process_char`.  The result is `ok (continue?, state)`;
the error case is the one exception the method does not catch: `ord` applied
to the empty sentinel in string mode.  Opcode exceptions are caught by the
`try` block and turned into `ok (false, partially mutated state)`.  Note that
in ignore mode the Python test `char in "|_"` is also true for the empty
sentinel, which therefore clears ignore mode.  The digit test models
`char.isdigit()` followed by `int(char)` on the ASCII digits `0`..`9`; the
model does not cover the exotic non-ASCII characters for which `isdigit` is
also true (no opcode or test uses them). -/
def process_char (o : Oracle) (s : State) (char : Cell) : Except Unit (Bool × State) :=
  if s.string_mode then
    match char with
    | some 34 => .ok (true, move { s with string_mode := false })
    | none => .error ()
    | some c => .ok (true, move { s with stack := (c : Int) :: s.stack })
  else if s.ignore_mode then
    let s1 := if char = none ∨ char = some 124 ∨ char = some 95 then
      { s with ignore_mode := false } else s
    .ok (true, move s1)
  else
    match char with
    | none => .ok (true, move s)
    | some c =>
      if 48 ≤ c ∧ c ≤ 57 then .ok (true, move { s with stack := ((c : Int) - 48) :: s.stack })
      else
        match execOp o s c with
        | none => .ok (true, move s)
        | some (.error se) => .ok (false, se)
        | some (.ok (.halt, s1)) => .ok (false, s1)
        | some (.ok (.jumped, s1)) => .ok (true, s1)
        | some (.ok (.norm, s1)) => .ok (true, move s1)

/-- Errors that can escape from `run` to the host: the `ValueError` raised
for negative step counts, or any other uncaught exception. -/
inductive RunErr
  | invalidArgument
  | uncaught
deriving DecidableEq, Repr

/-- One iteration of the `run` loop body: read the current cell (an
`AttributeError` if no program is loaded escapes uncaught) and process it. -/
def procStep (o : Oracle) (s : State) : Except RunErr (Bool × State) :=
  match s.program with
  | none => .error .uncaught
  | some g =>
    match process_char o s (g.get_item s.x s.y) with
    | .error _ => .error .uncaught
    | .ok r => .ok r

/-- The `steps > 0` loop of `run`: execute up to `n` cells; falling out of
the loop returns `true` (`0 < steps`), a halting step returns `false`. -/
def runN (o : Oracle) : Nat → State → Except RunErr (Bool × State)
  | 0, s => .ok (true, s)
  | n + 1, s =>
    match procStep o s with
    | .error e => .error e
    | .ok (false, s1) => .ok (false, s1)
    | .ok (true, s1) => runN o n s1

/-- The `steps == 0` loop of `run`, observed through a fuel bound: `none`
means the loop is still running after `fuel` iterations. -/
def run0 (o : Oracle) : Nat → State → Option (Except RunErr (Bool × State))
  | 0, _ => none
  | fuel + 1, s =>
    match procStep o s with
    | .error e => some (.error e)
    | .ok (false, s1) => some (.ok (false, s1))
    | .ok (true, s1) => run0 o fuel s1

/-- Mirrors `Interpreter.run`: negative `steps` raise `ValueError`
immediately; positive `steps` run the bounded loop; `steps = 0` runs the
unbounded loop (observed up to `fuel` iterations). -/
def run (o : Oracle) (steps : Int) (fuel : Nat) (s : State) :
    Option (Except RunErr (Bool × State)) :=
  if steps < 0 then some (.error .invalidArgument)
  else if 0 < steps then some (runN o steps.toNat s)
  else run0 o fuel s

/-- Decidable mirror of "a halt occurs within `n` steps": the bounded loop
reaches a step whose `process_char` returns `False` before any uncaught
exception. -/
def haltsWithin (o : Oracle) : Nat → State → Bool
  | 0, _ => false
  | n + 1, s =>
    match procStep o s with
    | .error _ => false
    | .ok (false, _) => true
    | .ok (true, s1) => haltsWithin o n s1

/-- Mirrors `Interpreter.get_current_char`: the Python truthiness test
`if self.program` is false both for `None` and for a zero-cell grid. -/
def get_current_char (s : State) : Cell :=
  match s.program with
  | some g => if g.truthy then g.get_item s.x s.y else none
  | none => none

/-- Mirrors `Interpreter.get_output`. -/
def get_output (s : State) : List Nat :=
  s.output.flatten

/-- The dictionary returned by `Interpreter.get_information`. -/
structure Snapshot where
  output : List Nat
  stack : List Int
  addition_stack : List Int
  call_stack : List (Int × Int)
  heap : List (Int × Int)
  position : Int × Int
  direction : Int × Int
  character : Cell
  ignore_mode : Bool
  string_mode : Bool
  input : Option (List Nat)
  input_pointer : Int
deriving DecidableEq, Repr

/-- Mirrors `Interpreter.get_information`. -/
def get_information (s : State) : Snapshot :=
  { output := get_output s
    stack := s.stack
    addition_stack := s.addition_stack
    call_stack := s.call_stack
    heap := s.heap
    position := (s.x, s.y)
    direction := s.direction
    character := get_current_char s
    ignore_mode := s.ignore_mode
    string_mode := s.string_mode
    input := s.input
    input_pointer := s.input_pointer }

/-- Mirrors `Interpreter.reset`: zero the dynamic state, keeping `program`,
`input` and `built_in_input`. -/
def reset (s : State) : State :=
  { s with stack := []
           addition_stack := []
           output := []
           call_stack := []
           heap := []
           ignore_mode := false
           string_mode := false
           input_pointer := 0
           x := 0
           y := 0
           direction := (1, 0) }

/-- Mirrors `Interpreter.set_input`: the input buffer and pointer are
replaced and `built_in_input` is unconditionally overwritten with a Python
boolean (`True` exactly when the new buffer is empty). -/
def set_input (s : State) (input_data : List Nat) (pointer_position : Int) : State :=
  { s with input := some input_data
           input_pointer := pointer_position
           built_in_input := if input_data.isEmpty then .boolTrue else .boolFalse }

end Interpreter

namespace Interpreter

/-- Concrete oracle used by the closed witness statements. -/
def oracle0 : Oracle :=
  { rand := fun _ => 0, time := fun _ => 0, callback := fun _ => .other, files := fun _ => none }

/-- Code points of the arithmetic, logic and stack-manipulation opcodes
listed by C5: `+ - * : % & o x ~ = ( ) P S C D U` and the rotations. -/
def stackOps : List Nat := [43, 45, 42, 58, 37, 38, 111, 120, 126, 61, 40, 41, 80, 83, 67, 68, 85, 123, 125]

/-- Number of operands each of those opcodes requires. -/
def opArity (c : Nat) : Nat := if c ∈ [126, 80, 67, 68, 85] then 1 else 2

/-- Length of the stack the guard of the opcode consults (the aux stack for
`U`, the main stack otherwise). -/
def guardLen (s : State) (c : Nat) : Nat :=
  if c = 85 then s.addition_stack.length else s.stack.length

/-- The invariant of C4: the direction is one of the four unit vectors and
the two modal flags are never simultaneously set. -/
def Inv (s : State) : Prop :=
  (s.direction = (0, -1) ∨ s.direction = (1, 0) ∨ s.direction = (0, 1) ∨ s.direction = (-1, 0))
  ∧ (s.ignore_mode && s.string_mode) = false

/-- Invariant of the state embedded in a handler result (including the
partially mutated state carried by an exception). -/
def resInv : Except State (OpRes × State) → Prop
  | .error se => Inv se
  | .ok (_, s1) => Inv s1

/-- Exceptions raised inside a handler leave the instruction pointer where
it was: the predicate holds of a handler result when any carried error state
has the x and y of the given pre-state. -/
def errFrame (s : State) : Except State (OpRes × State) → Prop
  | .error se => se.x = s.x ∧ se.y = s.y
  | .ok _ => True

/-- Concrete state for the C1 material: the cell `A` with stack `[-1]`, so
`chr(-1)` raises `ValueError` inside `op_print_char`. -/
def c1x : State :=
  { load_code (init none .noneB) [[65]] with stack := [-1] }

/-- Concrete one-cell program `@` for the C3 witness: it halts on the first
step. -/
def c3w : State := load_code (init none .noneB) [[64]]

/-- Concrete one-cell program `^` for the C4 witness. -/
def c4w : State := load_code (init none .noneB) [[94]]

/-- State after one step of `c4w`: facing up, moved to `(0, -1)`. -/
def c4w1 : State := { c4w with direction := (0, -1), y := -1 }

/-- Concrete state for the C5 witness: a one-element stack facing `+`. -/
def c5w : State :=
  { load_code (init none .noneB) [[43]] with stack := [5] }

/-- Concrete state for the C7 witness: at `(2, 0)` heading east with stack
`[9, 3, 7]` (top `y = 9`, then `x = 3`). -/
def c7w : State :=
  { load_code (init none .noneB) [[48, 48, 70]] with stack := [9, 3, 7], x := 2, y := 0 }

/-- Concrete state for the C8 witness: main stack `[7, -12]` (top 7). -/
def c8w : State :=
  { load_code (init none .noneB) [[58]] with stack := [7, -12] }

/-- Concrete state for the C9 witness: string mode is on and the IP at
`(5, 0)` is outside the 1×1 grid. -/
def c9w : State :=
  { load_code (init none .noneB) [[34]] with string_mode := true, x := 5 }

/-- Concrete pre-state for the C10 witness. -/
def c10w : State := load_code (init none .func) [[73]]

end Interpreter

namespace GridMap

/-- Well-formedness maintained by every grid operation: all rows have the
width of the first row (the constructor builds such a matrix). -/
def Uniform (g : GridMap) : Prop := ∀ r ∈ g.map, r.length = g.width

end GridMap

namespace Interpreter

/-- Concrete state for the C6 witness: stack `[1, 2, 65]` (top `y = 1`, then
`x = 2`, then the code point of `A`) facing `p`. -/
def c6w : State :=
  { load_code (init none .noneB) [[112]] with stack := [1, 2, 65] }

end Interpreter

namespace Interpreter

/-- Remainder bounds of floor-convention modulus for a negative divisor:
the remainder lies strictly above the divisor and is non-positive. -/
theorem fmod_neg_bounds : ∀ (a : Int) {b : Int}, b < 0 → b < Int.fmod a b ∧ Int.fmod a b ≤ 0 := by
  intro a b hb
  match a, b with
  | _, .ofNat k =>
    exact absurd hb (by exact Int.not_lt.mpr (Int.ofNat_nonneg k))
  | .ofNat 0, .negSucc n =>
    constructor
    · exact hb
    · simp [Int.fmod]
  | .ofNat (m + 1), .negSucc n =>
    have h1 : m % (n + 1) < n + 1 := Nat.mod_lt _ (Nat.succ_pos n)
    have h2 : Int.fmod (.ofNat (m + 1)) (.negSucc n) = Int.subNatNat (m % (n + 1)) n := rfl
    rw [h2, Int.subNatNat_eq_coe, Int.negSucc_eq]
    omega
  | .negSucc m, .negSucc n =>
    have h1 : (m + 1) % (n + 1) < n + 1 := Nat.mod_lt _ (Nat.succ_pos n)
    have h2 : Int.fmod (.negSucc m) (.negSucc n) = -(((m + 1) % (n + 1) : Nat) : Int) := rfl
    rw [h2, Int.negSucc_eq]
    omega

/-- C8: the `:` opcode pops `b` (top) then `a` and pushes the floor division
`a // b`, pushing 0 when `b = 0`; the `%` opcode pops `b` then `a` and pushes
`a % b` with the floor-division sign convention (remainder between the
divisor and zero), pushing 0 when `b = 0`; neither faults, the step continues
and the IP advances. -/
theorem c8_div_mod (o : Oracle) (s : State) (b a : Int) (rest : List Int)
    (hs : s.string_mode = false) (hi : s.ignore_mode = false)
    (hst : s.stack = b :: a :: rest) :
    process_char o s (some 58) =
      .ok (true, move { s with stack := (if b = 0 then 0 else Int.fdiv a b) :: rest })
    ∧ process_char o s (some 37) =
      .ok (true, move { s with stack := (if b = 0 then 0 else Int.fmod a b) :: rest })
    ∧ (b ≠ 0 → Int.fmod a b + b * Int.fdiv a b = a)
    ∧ (0 < b → 0 ≤ Int.fmod a b ∧ Int.fmod a b < b)
    ∧ (b < 0 → b < Int.fmod a b ∧ Int.fmod a b ≤ 0) := by
  refine ⟨?_, ?_, ?_, ?_, ?_⟩
  · simp [process_char, hs, hi, execOp, ops, List.lookup, op_div, hst]
  · simp [process_char, hs, hi, execOp, ops, List.lookup, op_mod, hst]
  · intro _; exact Int.fmod_add_fdiv a b
  · intro hb; exact ⟨Int.fmod_nonneg' a hb, Int.fmod_lt_of_pos a hb⟩
  · intro hb; exact fmod_neg_bounds a hb

/-- Closed instance of `c8_div_mod` at `b = 7`, `a = -12`. -/
theorem c8_div_mod_witness :
    process_char oracle0 c8w (some 58) =
      .ok (true, move { c8w with stack := [(if (7 : Int) = 0 then 0 else Int.fdiv (-12) 7)] })
    ∧ process_char oracle0 c8w (some 37) =
      .ok (true, move { c8w with stack := [(if (7 : Int) = 0 then 0 else Int.fmod (-12) 7)] })
    ∧ ((7 : Int) ≠ 0 → Int.fmod (-12) 7 + 7 * Int.fdiv (-12) 7 = -12)
    ∧ ((0 : Int) < 7 → 0 ≤ Int.fmod (-12) 7 ∧ Int.fmod (-12) 7 < 7)
    ∧ ((7 : Int) < 0 → 7 < Int.fmod (-12) 7 ∧ Int.fmod (-12) 7 ≤ 0) :=
  c8_div_mod oracle0 c8w 7 (-12) [] rfl rfl rfl

/-- C7: `F` pops `y` (top) then `x`, pushes the post-advance position of the
`F` cell (computed from the direction at dispatch time) onto the call stack,
sets the IP to `(x, y)`, continues, and performs no post-step IP advance
(the final position is exactly the popped target). -/
theorem c7_func_call (o : Oracle) (s : State) (yv xv : Int) (rest : List Int)
    (hs : s.string_mode = false) (hi : s.ignore_mode = false)
    (hst : s.stack = yv :: xv :: rest) :
    process_char o s (some 70) =
      .ok (true, { s with stack := rest,
                          call_stack := (s.x + s.direction.1, s.y + s.direction.2) :: s.call_stack,
                          x := xv, y := yv }) := by
  simp [process_char, hs, hi, execOp, ops, List.lookup, op_func_call, hst]

/-- Closed instance of `c7_func_call`: the return address `(3, 0)` is pushed
and the IP lands on `(3, 9)` with no further advance. -/
theorem c7_func_call_witness :
    process_char oracle0 c7w (some 70) =
      .ok (true, { c7w with stack := [7],
                            call_stack := (c7w.x + c7w.direction.1, c7w.y + c7w.direction.2) :: c7w.call_stack,
                            x := 3, y := 9 }) :=
  c7_func_call oracle0 c7w 9 3 [7] rfl rfl rfl

/-- C2 (amended): `reset` restores every snapshot field to that of a freshly
constructed interpreter except `input` (kept) and `character` (computed from
the retained program); the callback binding is likewise kept. -/
theorem c2_reset_amended (s : State) (inp : Option (List Nat)) (cb : BII) :
    (get_information (reset s)).output = (get_information (init inp cb)).output
    ∧ (get_information (reset s)).stack = (get_information (init inp cb)).stack
    ∧ (get_information (reset s)).addition_stack = (get_information (init inp cb)).addition_stack
    ∧ (get_information (reset s)).call_stack = (get_information (init inp cb)).call_stack
    ∧ (get_information (reset s)).heap = (get_information (init inp cb)).heap
    ∧ (get_information (reset s)).position = (get_information (init inp cb)).position
    ∧ (get_information (reset s)).direction = (get_information (init inp cb)).direction
    ∧ (get_information (reset s)).ignore_mode = (get_information (init inp cb)).ignore_mode
    ∧ (get_information (reset s)).string_mode = (get_information (init inp cb)).string_mode
    ∧ (get_information (reset s)).input_pointer = (get_information (init inp cb)).input_pointer
    ∧ (reset s).input = s.input
    ∧ (reset s).built_in_input = s.built_in_input := by
  refine ⟨rfl, rfl, rfl, rfl, rfl, rfl, rfl, rfl, rfl, rfl, rfl, rfl⟩

/-- C2 fails as stated: after loading the one-cell program `@` and calling
`reset`, the snapshot field `character` is the cell at `(0, 0)` of the
retained program, not the empty value of a fresh interpreter. -/
theorem c2_reset_counterexample :
    (get_information (reset (load_code (init none .noneB) [[64]]))).character ≠
      (get_information (init none .noneB)).character := by
  decide

/-- C9: in string mode on the empty sentinel, `process_char` raises on
`ord` of the empty string; the exception is not caught by the step and
propagates out of `run` (for any positive step budget, and for `run(0)`)
to the host. -/
theorem c9_string_mode_empty (o : Oracle) (s : State) (g : GridMap)
    (hsm : s.string_mode = true) (hp : s.program = some g)
    (hc : g.get_item s.x s.y = none) :
    process_char o s none = .error ()
    ∧ (∀ steps fuel, 1 ≤ steps → run o steps fuel s = some (.error .uncaught))
    ∧ (∀ fuel, 1 ≤ fuel → run o 0 fuel s = some (.error .uncaught)) := by
  have hpc : process_char o s none = .error () := by
    simp [process_char, hsm]
  have hps : procStep o s = .error .uncaught := by
    simp [procStep, hp, hc, hpc]
  refine ⟨hpc, ?_, ?_⟩
  · intro steps fuel hsteps
    have h0 : ¬ steps < 0 := by omega
    have h1 : 0 < steps := by omega
    obtain ⟨k, hk⟩ : ∃ k, steps.toNat = k + 1 := ⟨steps.toNat - 1, by omega⟩
    simp only [run, h0, h1, if_false, if_true]
    rw [hk]
    simp [runN, hps]
  · intro fuel hfuel
    obtain ⟨k, hk⟩ : ∃ k, fuel = k + 1 := ⟨fuel - 1, by omega⟩
    subst hk
    simp [run, run0, hps]

/-- Closed instance of `c9_string_mode_empty` at one step of budget. -/
theorem c9_string_mode_empty_witness :
    process_char oracle0 c9w none = .error ()
    ∧ run oracle0 3 0 c9w = some (.error .uncaught)
    ∧ run oracle0 0 7 c9w = some (.error .uncaught) := by
  have h := c9_string_mode_empty oracle0 c9w (GridMap.ofRows [[34]]) rfl rfl rfl
  exact ⟨h.1, h.2.1 3 0 (by decide), h.2.2 7 (by decide)⟩

/-- C10: `set_input` unconditionally overwrites `built_in_input` with a
Python boolean — `True` exactly when the new buffer is empty — so the host
callback binding is lost; and from any state whose input buffer is the empty
string and whose `built_in_input` is `True`, the `I` opcode calls `True`,
the `TypeError` is caught in `process_char`, and the step halts with the
state unchanged. -/
theorem c10_set_input (s : State) (d : List Nat) (p : Int) :
    ((set_input s d p).built_in_input = if d.isEmpty then BII.boolTrue else BII.boolFalse)
    ∧ ((set_input s d p).input = some d)
    ∧ (∀ (o : Oracle) (s2 : State), s2.input = some [] → s2.built_in_input = .boolTrue →
        s2.string_mode = false → s2.ignore_mode = false →
        process_char o s2 (some 73) = .ok (false, s2)) := by
  refine ⟨rfl, rfl, ?_⟩
  intro o s2 hin hbii hs hi
  simp [process_char, hs, hi, execOp, ops, List.lookup, op_input, hin, hbii]

/-- Closed instance of `c10_set_input` with an empty replacement buffer:
the callback binding becomes the boolean `True` and the next `I` halts. -/
theorem c10_set_input_witness :
    ((set_input c10w [] 0).built_in_input = if ([] : List Nat).isEmpty then BII.boolTrue else BII.boolFalse)
    ∧ ((set_input c10w [] 0).input = some [])
    ∧ process_char oracle0 (set_input c10w [] 0) (some 73) = .ok (false, set_input c10w [] 0) := by
  have h := c10_set_input c10w [] 0
  exact ⟨h.1, h.2.1, h.2.2 oracle0 (set_input c10w [] 0) rfl rfl rfl rfl⟩

/-- C5: an arithmetic/logic/stack opcode whose arity is unmet is a complete
no-op: the step continues, only the IP moves, and in particular the main
stack is unchanged and no underflow fault occurs. -/
theorem c5_arity_noop (o : Oracle) (s : State) (c : Nat)
    (hc : c ∈ stackOps)
    (hs : s.string_mode = false) (hi : s.ignore_mode = false)
    (hlen : guardLen s c < opArity c) :
    process_char o s (some c) = .ok (true, move s) := by
  fin_cases hc <;>
    simp only [guardLen, opArity, if_pos, if_neg, List.mem_cons, List.not_mem_nil] at hlen <;>
    first
      | (rcases hst : s.stack with _ | ⟨a, _ | ⟨b, t⟩⟩ <;>
          simp_all [process_char, execOp, ops, List.lookup, op_add, op_sub, op_mul, op_div, op_mod,
            op_and, op_or, op_xor, op_not, op_eq, op_less, op_greater, op_pop,
            op_swap, op_copy, op_move_to_aux, op_rotate_left, op_rotate_right, move] <;> omega)
      | (rcases hst : s.addition_stack with _ | ⟨a, t⟩ <;>
          simp_all [process_char, execOp, ops, List.lookup, op_move_from_aux, move])

/-- Closed instance of `c5_arity_noop`: `+` on a one-element stack only
moves the IP. -/
theorem c5_arity_noop_witness :
    process_char oracle0 c5w (some 43) = .ok (true, move c5w) :=
  c5_arity_noop oracle0 c5w 43 (by decide) rfl rfl (by decide)

end Interpreter

namespace Interpreter

theorem TURN_RIGHT_val {d d1 : Int × Int} (h : TURN_RIGHT d = some d1) :
    d1 = (0, -1) ∨ d1 = (1, 0) ∨ d1 = (0, 1) ∨ d1 = (-1, 0) := by
  unfold TURN_RIGHT at h
  split_ifs at h <;> simp_all

theorem TURN_LEFT_val {d d1 : Int × Int} (h : TURN_LEFT d = some d1) :
    d1 = (0, -1) ∨ d1 = (1, 0) ∨ d1 = (0, 1) ∨ d1 = (-1, 0) := by
  unfold TURN_LEFT at h
  split_ifs at h <;> simp_all

theorem dirOfFin_val (i : Fin 4) :
    dirOfFin i = (0, -1) ∨ dirOfFin i = (1, 0) ∨ dirOfFin i = (0, 1) ∨ dirOfFin i = (-1, 0) := by
  fin_cases i <;> simp [dirOfFin]

theorem op_up_resInv (s : State) (h : Inv s)
    (hs : s.string_mode = false) (hi : s.ignore_mode = false) : resInv (op_up s) := by
  unfold op_up
  (repeat' split) <;> simp_all [resInv, Inv]

theorem op_right_resInv (s : State) (h : Inv s)
    (hs : s.string_mode = false) (hi : s.ignore_mode = false) : resInv (op_right s) := by
  unfold op_right
  (repeat' split) <;> simp_all [resInv, Inv]

theorem op_left_resInv (s : State) (h : Inv s)
    (hs : s.string_mode = false) (hi : s.ignore_mode = false) : resInv (op_left s) := by
  unfold op_left
  (repeat' split) <;> simp_all [resInv, Inv]

theorem op_down_resInv (s : State) (h : Inv s)
    (hs : s.string_mode = false) (hi : s.ignore_mode = false) : resInv (op_down s) := by
  unfold op_down
  (repeat' split) <;> simp_all [resInv, Inv]

theorem op_add_resInv (s : State) (h : Inv s)
    (hs : s.string_mode = false) (hi : s.ignore_mode = false) : resInv (op_add s) := by
  unfold op_add
  (repeat' split) <;> simp_all [resInv, Inv]

theorem op_sub_resInv (s : State) (h : Inv s)
    (hs : s.string_mode = false) (hi : s.ignore_mode = false) : resInv (op_sub s) := by
  unfold op_sub
  (repeat' split) <;> simp_all [resInv, Inv]

theorem op_mul_resInv (s : State) (h : Inv s)
    (hs : s.string_mode = false) (hi : s.ignore_mode = false) : resInv (op_mul s) := by
  unfold op_mul
  (repeat' split) <;> simp_all [resInv, Inv]

theorem op_div_resInv (s : State) (h : Inv s)
    (hs : s.string_mode = false) (hi : s.ignore_mode = false) : resInv (op_div s) := by
  unfold op_div
  (repeat' split) <;> simp_all [resInv, Inv]

theorem op_mod_resInv (s : State) (h : Inv s)
    (hs : s.string_mode = false) (hi : s.ignore_mode = false) : resInv (op_mod s) := by
  unfold op_mod
  (repeat' split) <;> simp_all [resInv, Inv]

theorem op_and_resInv (s : State) (h : Inv s)
    (hs : s.string_mode = false) (hi : s.ignore_mode = false) : resInv (op_and s) := by
  unfold op_and
  (repeat' split) <;> simp_all [resInv, Inv]

theorem op_or_resInv (s : State) (h : Inv s)
    (hs : s.string_mode = false) (hi : s.ignore_mode = false) : resInv (op_or s) := by
  unfold op_or
  (repeat' split) <;> simp_all [resInv, Inv]

theorem op_xor_resInv (s : State) (h : Inv s)
    (hs : s.string_mode = false) (hi : s.ignore_mode = false) : resInv (op_xor s) := by
  unfold op_xor
  (repeat' split) <;> simp_all [resInv, Inv]

theorem op_not_resInv (s : State) (h : Inv s)
    (hs : s.string_mode = false) (hi : s.ignore_mode = false) : resInv (op_not s) := by
  unfold op_not
  (repeat' split) <;> simp_all [resInv, Inv]

theorem op_eq_resInv (s : State) (h : Inv s)
    (hs : s.string_mode = false) (hi : s.ignore_mode = false) : resInv (op_eq s) := by
  unfold op_eq
  (repeat' split) <;> simp_all [resInv, Inv]

theorem op_less_resInv (s : State) (h : Inv s)
    (hs : s.string_mode = false) (hi : s.ignore_mode = false) : resInv (op_less s) := by
  unfold op_less
  (repeat' split) <;> simp_all [resInv, Inv]

theorem op_greater_resInv (s : State) (h : Inv s)
    (hs : s.string_mode = false) (hi : s.ignore_mode = false) : resInv (op_greater s) := by
  unfold op_greater
  (repeat' split) <;> simp_all [resInv, Inv]

theorem op_pop_resInv (s : State) (h : Inv s)
    (hs : s.string_mode = false) (hi : s.ignore_mode = false) : resInv (op_pop s) := by
  unfold op_pop
  (repeat' split) <;> simp_all [resInv, Inv]

theorem op_swap_resInv (s : State) (h : Inv s)
    (hs : s.string_mode = false) (hi : s.ignore_mode = false) : resInv (op_swap s) := by
  unfold op_swap
  (repeat' split) <;> simp_all [resInv, Inv]

theorem op_copy_resInv (s : State) (h : Inv s)
    (hs : s.string_mode = false) (hi : s.ignore_mode = false) : resInv (op_copy s) := by
  unfold op_copy
  (repeat' split) <;> simp_all [resInv, Inv]

theorem op_move_to_aux_resInv (s : State) (h : Inv s)
    (hs : s.string_mode = false) (hi : s.ignore_mode = false) : resInv (op_move_to_aux s) := by
  unfold op_move_to_aux
  (repeat' split) <;> simp_all [resInv, Inv]

theorem op_move_from_aux_resInv (s : State) (h : Inv s)
    (hs : s.string_mode = false) (hi : s.ignore_mode = false) : resInv (op_move_from_aux s) := by
  unfold op_move_from_aux
  (repeat' split) <;> simp_all [resInv, Inv]

theorem op_rotate_left_resInv (s : State) (h : Inv s)
    (hs : s.string_mode = false) (hi : s.ignore_mode = false) : resInv (op_rotate_left s) := by
  unfold op_rotate_left
  (repeat' split) <;> simp_all [resInv, Inv]

theorem op_rotate_right_resInv (s : State) (h : Inv s)
    (hs : s.string_mode = false) (hi : s.ignore_mode = false) : resInv (op_rotate_right s) := by
  unfold op_rotate_right
  (repeat' split) <;> simp_all [resInv, Inv]

theorem op_len_resInv (s : State) (h : Inv s)
    (hs : s.string_mode = false) (hi : s.ignore_mode = false) : resInv (op_len s) := by
  unfold op_len
  (repeat' split) <;> simp_all [resInv, Inv]

theorem op_clear_resInv (s : State) (h : Inv s)
    (hs : s.string_mode = false) (hi : s.ignore_mode = false) : resInv (op_clear s) := by
  unfold op_clear
  (repeat' split) <;> simp_all [resInv, Inv]

theorem op_print_num_resInv (s : State) (h : Inv s)
    (hs : s.string_mode = false) (hi : s.ignore_mode = false) : resInv (op_print_num s) := by
  unfold op_print_num
  (repeat' split) <;> simp_all [resInv, Inv]

theorem op_print_char_resInv (s : State) (h : Inv s)
    (hs : s.string_mode = false) (hi : s.ignore_mode = false) : resInv (op_print_char s) := by
  unfold op_print_char
  (repeat' split) <;> simp_all [resInv, Inv]

theorem op_heap_store_resInv (s : State) (h : Inv s)
    (hs : s.string_mode = false) (hi : s.ignore_mode = false) : resInv (op_heap_store s) := by
  unfold op_heap_store
  (repeat' split) <;> simp_all [resInv, Inv]

theorem op_heap_load_resInv (s : State) (h : Inv s)
    (hs : s.string_mode = false) (hi : s.ignore_mode = false) : resInv (op_heap_load s) := by
  unfold op_heap_load
  (repeat' split) <;> simp_all [resInv, Inv]

theorem op_grid_get_resInv (s : State) (h : Inv s)
    (hs : s.string_mode = false) (hi : s.ignore_mode = false) : resInv (op_grid_get s) := by
  unfold op_grid_get
  (repeat' split) <;> simp_all [resInv, Inv]

theorem op_grid_put_resInv (s : State) (h : Inv s)
    (hs : s.string_mode = false) (hi : s.ignore_mode = false) : resInv (op_grid_put s) := by
  unfold op_grid_put
  (repeat' split) <;> simp_all [resInv, Inv]

theorem op_jump_resInv (s : State) (h : Inv s)
    (hs : s.string_mode = false) (hi : s.ignore_mode = false) : resInv (op_jump s) := by
  unfold op_jump
  (repeat' split) <;> simp_all [resInv, Inv]

theorem op_func_call_resInv (s : State) (h : Inv s)
    (hs : s.string_mode = false) (hi : s.ignore_mode = false) : resInv (op_func_call s) := by
  unfold op_func_call
  (repeat' split) <;> simp_all [resInv, Inv]

theorem op_return_resInv (s : State) (h : Inv s)
    (hs : s.string_mode = false) (hi : s.ignore_mode = false) : resInv (op_return s) := by
  unfold op_return
  (repeat' split) <;> simp_all [resInv, Inv]

theorem op_wait_resInv (s : State) (h : Inv s)
    (hs : s.string_mode = false) (hi : s.ignore_mode = false) : resInv (op_wait s) := by
  unfold op_wait
  (repeat' split) <;> simp_all [resInv, Inv]

theorem op_vertical_mirror_resInv (s : State) (h : Inv s)
    (hs : s.string_mode = false) (hi : s.ignore_mode = false) : resInv (op_vertical_mirror s) := by
  unfold op_vertical_mirror
  (repeat' split) <;> simp_all [resInv, Inv]

theorem op_horizontal_mirror_resInv (s : State) (h : Inv s)
    (hs : s.string_mode = false) (hi : s.ignore_mode = false) : resInv (op_horizontal_mirror s) := by
  unfold op_horizontal_mirror
  (repeat' split) <;> simp_all [resInv, Inv]

theorem op_exit_resInv (s : State) (h : Inv s)
    (hs : s.string_mode = false) (hi : s.ignore_mode = false) : resInv (op_exit s) := by
  unfold op_exit
  (repeat' split) <;> simp_all [resInv, Inv]

theorem op_quote_resInv (s : State) (h : Inv s)
    (hs : s.string_mode = false) (hi : s.ignore_mode = false) : resInv (op_quote s) := by
  unfold op_quote
  (repeat' split) <;> simp_all [resInv, Inv]

theorem op_random_dir_resInv (o : Oracle) (s : State) (h : Inv s)
    (hs : s.string_mode = false) (hi : s.ignore_mode = false) : resInv (op_random_dir o s) :=
  ⟨dirOfFin_val _, h.2⟩

theorem op_time_resInv (o : Oracle) (s : State) (h : Inv s)
    (hs : s.string_mode = false) (hi : s.ignore_mode = false) : resInv (op_time o s) :=
  ⟨h.1, h.2⟩

theorem op_input_resInv (o : Oracle) (s : State) (h : Inv s)
    (hs : s.string_mode = false) (hi : s.ignore_mode = false) : resInv (op_input o s) := by
  unfold op_input
  split
  · split
    · split <;> simp_all [resInv, Inv]
    · simp_all [resInv, Inv]
  · rcases s.built_in_input
    · simp_all [resInv, Inv]
    · rcases hcb : o.callback s.tick with ⟨_ | ⟨c, crest⟩⟩ | n | _ <;> simp_all [resInv, Inv]
    · simp_all [resInv, Inv]
    · simp_all [resInv, Inv]

theorem op_merge_resInv (o : Oracle) (s : State) (h : Inv s)
    (hs : s.string_mode = false) (hi : s.ignore_mode = false) : resInv (op_merge o s) := by
  unfold op_merge
  (repeat' split) <;> simp_all [resInv, Inv]

theorem op_mirror_slash_resInv (s : State) (h : Inv s)
    (hs : s.string_mode = false) (hi : s.ignore_mode = false) : resInv (op_mirror_slash s) := by
  unfold op_mirror_slash
  rcases hst : s.stack with _ | ⟨a, rest⟩
  · exact h
  · dsimp only
    rcases hT : (if a = 0 then TURN_LEFT s.direction else TURN_RIGHT s.direction) with _ | d
    · exact ⟨h.1, h.2⟩
    · have hd : d = (0, -1) ∨ d = (1, 0) ∨ d = (0, 1) ∨ d = (-1, 0) := by
        split_ifs at hT
        · exact TURN_LEFT_val hT
        · exact TURN_RIGHT_val hT
      exact ⟨hd, h.2⟩

theorem op_mirror_backslash_resInv (s : State) (h : Inv s)
    (hs : s.string_mode = false) (hi : s.ignore_mode = false) : resInv (op_mirror_backslash s) := by
  unfold op_mirror_backslash
  rcases hst : s.stack with _ | ⟨a, rest⟩
  · exact h
  · dsimp only
    rcases hT : (if a = 0 then TURN_RIGHT s.direction else TURN_LEFT s.direction) with _ | d
    · exact ⟨h.1, h.2⟩
    · have hd : d = (0, -1) ∨ d = (1, 0) ∨ d = (0, 1) ∨ d = (-1, 0) := by
        split_ifs at hT
        · exact TURN_RIGHT_val hT
        · exact TURN_LEFT_val hT
      exact ⟨hd, h.2⟩

/-- Membership of a successful association-list lookup. -/
theorem lookup_mem {α β : Type} [BEq α] [LawfulBEq α] {l : List (α × β)} {k : α} {f : β}
    (h : l.lookup k = some f) : (k, f) ∈ l := by
  induction l with
  | nil => simp [List.lookup] at h
  | cons p t ih =>
    obtain ⟨k1, v1⟩ := p
    rw [List.lookup] at h
    rcases hk : (k == k1) with _ | _ <;> rw [hk] at h
    · exact List.mem_cons_of_mem _ (ih h)
    · injection h with h1
      subst h1
      have hke : k = k1 := eq_of_beq hk
      subst hke
      exact List.mem_cons_self _ _

/-- Every handler in the dispatch table preserves the C4 invariant on every
outcome, given that dispatch only happens outside string and ignore mode. -/
theorem ops_resInv (o : Oracle) (s : State) (c : Nat)
    (f : Oracle → State → Except State (OpRes × State)) (hmem : (c, f) ∈ ops)
    (h : Inv s) (hs : s.string_mode = false) (hi : s.ignore_mode = false) :
    resInv (f o s) := by
  simp only [ops, List.mem_cons, Prod.mk.injEq, List.not_mem_nil, or_false] at hmem
  rcases hmem with ⟨_, rfl⟩ | ⟨_, rfl⟩ | ⟨_, rfl⟩ | ⟨_, rfl⟩ | ⟨_, rfl⟩ | ⟨_, rfl⟩ | ⟨_, rfl⟩ | ⟨_, rfl⟩ | ⟨_, rfl⟩ | ⟨_, rfl⟩ | ⟨_, rfl⟩ | ⟨_, rfl⟩ | ⟨_, rfl⟩ | ⟨_, rfl⟩ | ⟨_, rfl⟩ | ⟨_, rfl⟩ | ⟨_, rfl⟩ | ⟨_, rfl⟩ | ⟨_, rfl⟩ | ⟨_, rfl⟩ | ⟨_, rfl⟩ | ⟨_, rfl⟩ | ⟨_, rfl⟩ | ⟨_, rfl⟩ | ⟨_, rfl⟩ | ⟨_, rfl⟩ | ⟨_, rfl⟩ | ⟨_, rfl⟩ | ⟨_, rfl⟩ | ⟨_, rfl⟩ | ⟨_, rfl⟩ | ⟨_, rfl⟩ | ⟨_, rfl⟩ | ⟨_, rfl⟩ | ⟨_, rfl⟩ | ⟨_, rfl⟩ | ⟨_, rfl⟩ | ⟨_, rfl⟩ | ⟨_, rfl⟩ | ⟨_, rfl⟩ | ⟨_, rfl⟩ | ⟨_, rfl⟩ | ⟨_, rfl⟩ | ⟨_, rfl⟩ | ⟨_, rfl⟩ <;>
    first
        | exact op_up_resInv s h hs hi
        | exact op_right_resInv s h hs hi
        | exact op_left_resInv s h hs hi
        | exact op_down_resInv s h hs hi
        | exact op_random_dir_resInv o s h hs hi
        | exact op_add_resInv s h hs hi
        | exact op_sub_resInv s h hs hi
        | exact op_mul_resInv s h hs hi
        | exact op_div_resInv s h hs hi
        | exact op_mod_resInv s h hs hi
        | exact op_and_resInv s h hs hi
        | exact op_or_resInv s h hs hi
        | exact op_xor_resInv s h hs hi
        | exact op_not_resInv s h hs hi
        | exact op_eq_resInv s h hs hi
        | exact op_less_resInv s h hs hi
        | exact op_greater_resInv s h hs hi
        | exact op_pop_resInv s h hs hi
        | exact op_swap_resInv s h hs hi
        | exact op_copy_resInv s h hs hi
        | exact op_move_to_aux_resInv s h hs hi
        | exact op_move_from_aux_resInv s h hs hi
        | exact op_rotate_left_resInv s h hs hi
        | exact op_rotate_right_resInv s h hs hi
        | exact op_len_resInv s h hs hi
        | exact op_clear_resInv s h hs hi
        | exact op_print_num_resInv s h hs hi
        | exact op_print_char_resInv s h hs hi
        | exact op_input_resInv o s h hs hi
        | exact op_heap_store_resInv s h hs hi
        | exact op_heap_load_resInv s h hs hi
        | exact op_grid_get_resInv s h hs hi
        | exact op_grid_put_resInv s h hs hi
        | exact op_jump_resInv s h hs hi
        | exact op_func_call_resInv s h hs hi
        | exact op_return_resInv s h hs hi
        | exact op_merge_resInv o s h hs hi
        | exact op_time_resInv o s h hs hi
        | exact op_wait_resInv s h hs hi
        | exact op_vertical_mirror_resInv s h hs hi
        | exact op_horizontal_mirror_resInv s h hs hi
        | exact op_mirror_slash_resInv s h hs hi
        | exact op_mirror_backslash_resInv s h hs hi
        | exact op_exit_resInv s h hs hi
        | exact op_quote_resInv s h hs hi

/-- Dispatching any opcode from a state satisfying the C4 invariant yields a
result all of whose embedded states satisfy it again. -/
theorem execOp_resInv (o : Oracle) (s : State) (c : Nat) (r : Except State (OpRes × State))
    (h : Inv s) (hs : s.string_mode = false) (hi : s.ignore_mode = false)
    (hr : execOp o s c = some r) : resInv r := by
  unfold execOp at hr
  rcases hL : List.lookup c ops with _ | f <;> rw [hL] at hr
  · simp at hr
  · injection hr with h1
    subst h1
    exact ops_resInv o s c f (lookup_mem hL) h hs hi

/-- A completed `process_char` step preserves the C4 invariant, whether it
continues or halts. -/
theorem process_char_inv (o : Oracle) (s : State) (ch : Cell) (b : Bool) (s1 : State)
    (h : Inv s) (hp : process_char o s ch = .ok (b, s1)) : Inv s1 := by
  unfold process_char at hp
  by_cases hsm : s.string_mode
  · rw [if_pos hsm] at hp
    split at hp
    · injection hp with h2
      injection h2 with h3 h4
      subst h4
      exact ⟨h.1, by simp [move]⟩
    · exact absurd hp (by simp)
    · injection hp with h2
      injection h2 with h3 h4
      subst h4
      exact ⟨h.1, h.2⟩
  · rw [if_neg hsm] at hp
    have hs : s.string_mode = false := by simpa using hsm
    by_cases hig : s.ignore_mode
    · rw [if_pos hig] at hp
      injection hp with h2
      injection h2 with h3 h4
      subst h4
      split
      · exact ⟨h.1, by simp [move]⟩
      · exact ⟨h.1, h.2⟩
    · rw [if_neg hig] at hp
      have hi : s.ignore_mode = false := by simpa using hig
      split at hp
      · injection hp with h2
        injection h2 with h3 h4
        subst h4
        exact ⟨h.1, h.2⟩
      · rename_i c
        split_ifs at hp
        · injection hp with h2
          injection h2 with h3 h4
          subst h4
          exact ⟨h.1, h.2⟩
        · split at hp
          · injection hp with h2
            injection h2 with h3 h4
            subst h4
            exact ⟨h.1, h.2⟩
          · rename_i heq
            injection hp with h2
            injection h2 with h3 h4
            subst h4
            exact execOp_resInv o s c _ h hs hi heq
          · rename_i heq
            injection hp with h2
            injection h2 with h3 h4
            subst h4
            exact execOp_resInv o s c _ h hs hi heq
          · rename_i heq
            injection hp with h2
            injection h2 with h3 h4
            subst h4
            exact execOp_resInv o s c _ h hs hi heq
          · rename_i heq
            injection hp with h2
            injection h2 with h3 h4
            subst h4
            exact execOp_resInv o s c _ h hs hi heq

/-- A successful loop iteration comes from `process_char` on the current
cell of a loaded program. -/
theorem procStep_ok (o : Oracle) (s : State) (r : Bool × State)
    (h : procStep o s = .ok r) : ∃ ch, process_char o s ch = .ok r := by
  unfold procStep at h
  rcases hpg : s.program with _ | g <;> rw [hpg] at h
  · exact absurd h (by simp)
  · dsimp only at h
    rcases hpc : process_char o s (g.get_item s.x s.y) with e | r2 <;> rw [hpc] at h
    · exact absurd h (by simp)
    · injection h with h1
      subst h1
      exact ⟨_, hpc⟩

/-- C4: from any state satisfying the invariant (as the initial state does),
after each completed step of any run the direction is one of the four unit
vectors and the two modal flags are not simultaneously set. -/
theorem c4_direction_mode_invariant (o : Oracle) :
    ∀ (n : Nat) (s : State) (b : Bool) (s1 : State),
      Inv s → runN o n s = .ok (b, s1) → Inv s1 := by
  intro n
  induction n with
  | zero =>
    intro s b s1 h hr
    unfold runN at hr
    injection hr with h2
    injection h2 with h3 h4
    subst h4
    exact h
  | succ n ih =>
    intro s b s1 h hr
    unfold runN at hr
    rcases hps : procStep o s with e | ⟨b2, s2⟩ <;> rw [hps] at hr
    · exact absurd hr (by simp)
    · obtain ⟨ch, hpc⟩ := procStep_ok o s (b2, s2) hps
      have h2 : Inv s2 := process_char_inv o s ch b2 s2 h hpc
      cases b2
      · injection hr with h3
        injection h3 with h4 h5
        subst h5
        exact h2
      · exact ih s2 b s1 h2 hr

/-- Closed instance of `c4_direction_mode_invariant` after one step. -/
theorem c4_direction_mode_invariant_witness : Inv c4w1 :=
  c4_direction_mode_invariant oracle0 1 c4w true c4w1 (by constructor <;> simp [c4w, load_code, init]) (by rfl)

theorem op_up_errFrame (s : State) : errFrame s (op_up s) := by
  unfold op_up
  (repeat' split) <;> simp_all [errFrame]

theorem op_right_errFrame (s : State) : errFrame s (op_right s) := by
  unfold op_right
  (repeat' split) <;> simp_all [errFrame]

theorem op_left_errFrame (s : State) : errFrame s (op_left s) := by
  unfold op_left
  (repeat' split) <;> simp_all [errFrame]

theorem op_down_errFrame (s : State) : errFrame s (op_down s) := by
  unfold op_down
  (repeat' split) <;> simp_all [errFrame]

theorem op_add_errFrame (s : State) : errFrame s (op_add s) := by
  unfold op_add
  (repeat' split) <;> simp_all [errFrame]

theorem op_sub_errFrame (s : State) : errFrame s (op_sub s) := by
  unfold op_sub
  (repeat' split) <;> simp_all [errFrame]

theorem op_mul_errFrame (s : State) : errFrame s (op_mul s) := by
  unfold op_mul
  (repeat' split) <;> simp_all [errFrame]

theorem op_div_errFrame (s : State) : errFrame s (op_div s) := by
  unfold op_div
  (repeat' split) <;> simp_all [errFrame]

theorem op_mod_errFrame (s : State) : errFrame s (op_mod s) := by
  unfold op_mod
  (repeat' split) <;> simp_all [errFrame]

theorem op_and_errFrame (s : State) : errFrame s (op_and s) := by
  unfold op_and
  (repeat' split) <;> simp_all [errFrame]

theorem op_or_errFrame (s : State) : errFrame s (op_or s) := by
  unfold op_or
  (repeat' split) <;> simp_all [errFrame]

theorem op_xor_errFrame (s : State) : errFrame s (op_xor s) := by
  unfold op_xor
  (repeat' split) <;> simp_all [errFrame]

theorem op_not_errFrame (s : State) : errFrame s (op_not s) := by
  unfold op_not
  (repeat' split) <;> simp_all [errFrame]

theorem op_eq_errFrame (s : State) : errFrame s (op_eq s) := by
  unfold op_eq
  (repeat' split) <;> simp_all [errFrame]

theorem op_less_errFrame (s : State) : errFrame s (op_less s) := by
  unfold op_less
  (repeat' split) <;> simp_all [errFrame]

theorem op_greater_errFrame (s : State) : errFrame s (op_greater s) := by
  unfold op_greater
  (repeat' split) <;> simp_all [errFrame]

theorem op_pop_errFrame (s : State) : errFrame s (op_pop s) := by
  unfold op_pop
  (repeat' split) <;> simp_all [errFrame]

theorem op_swap_errFrame (s : State) : errFrame s (op_swap s) := by
  unfold op_swap
  (repeat' split) <;> simp_all [errFrame]

theorem op_copy_errFrame (s : State) : errFrame s (op_copy s) := by
  unfold op_copy
  (repeat' split) <;> simp_all [errFrame]

theorem op_move_to_aux_errFrame (s : State) : errFrame s (op_move_to_aux s) := by
  unfold op_move_to_aux
  (repeat' split) <;> simp_all [errFrame]

theorem op_move_from_aux_errFrame (s : State) : errFrame s (op_move_from_aux s) := by
  unfold op_move_from_aux
  (repeat' split) <;> simp_all [errFrame]

theorem op_rotate_left_errFrame (s : State) : errFrame s (op_rotate_left s) := by
  unfold op_rotate_left
  (repeat' split) <;> simp_all [errFrame]

theorem op_rotate_right_errFrame (s : State) : errFrame s (op_rotate_right s) := by
  unfold op_rotate_right
  (repeat' split) <;> simp_all [errFrame]

theorem op_len_errFrame (s : State) : errFrame s (op_len s) := by
  unfold op_len
  (repeat' split) <;> simp_all [errFrame]

theorem op_clear_errFrame (s : State) : errFrame s (op_clear s) := by
  unfold op_clear
  (repeat' split) <;> simp_all [errFrame]

theorem op_print_num_errFrame (s : State) : errFrame s (op_print_num s) := by
  unfold op_print_num
  (repeat' split) <;> simp_all [errFrame]

theorem op_print_char_errFrame (s : State) : errFrame s (op_print_char s) := by
  unfold op_print_char
  (repeat' split) <;> simp_all [errFrame]

theorem op_heap_store_errFrame (s : State) : errFrame s (op_heap_store s) := by
  unfold op_heap_store
  (repeat' split) <;> simp_all [errFrame]

theorem op_heap_load_errFrame (s : State) : errFrame s (op_heap_load s) := by
  unfold op_heap_load
  (repeat' split) <;> simp_all [errFrame]

theorem op_grid_get_errFrame (s : State) : errFrame s (op_grid_get s) := by
  unfold op_grid_get
  (repeat' split) <;> simp_all [errFrame]

theorem op_grid_put_errFrame (s : State) : errFrame s (op_grid_put s) := by
  unfold op_grid_put
  (repeat' split) <;> simp_all [errFrame]

theorem op_jump_errFrame (s : State) : errFrame s (op_jump s) := by
  unfold op_jump
  (repeat' split) <;> simp_all [errFrame]

theorem op_func_call_errFrame (s : State) : errFrame s (op_func_call s) := by
  unfold op_func_call
  (repeat' split) <;> simp_all [errFrame]

theorem op_return_errFrame (s : State) : errFrame s (op_return s) := by
  unfold op_return
  (repeat' split) <;> simp_all [errFrame]

theorem op_wait_errFrame (s : State) : errFrame s (op_wait s) := by
  unfold op_wait
  (repeat' split) <;> simp_all [errFrame]

theorem op_vertical_mirror_errFrame (s : State) : errFrame s (op_vertical_mirror s) := by
  unfold op_vertical_mirror
  (repeat' split) <;> simp_all [errFrame]

theorem op_horizontal_mirror_errFrame (s : State) : errFrame s (op_horizontal_mirror s) := by
  unfold op_horizontal_mirror
  (repeat' split) <;> simp_all [errFrame]

theorem op_mirror_slash_errFrame (s : State) : errFrame s (op_mirror_slash s) := by
  unfold op_mirror_slash
  (repeat' split) <;> simp_all [errFrame]

theorem op_mirror_backslash_errFrame (s : State) : errFrame s (op_mirror_backslash s) := by
  unfold op_mirror_backslash
  (repeat' split) <;> simp_all [errFrame]

theorem op_exit_errFrame (s : State) : errFrame s (op_exit s) := by
  unfold op_exit
  (repeat' split) <;> simp_all [errFrame]

theorem op_quote_errFrame (s : State) : errFrame s (op_quote s) := by
  unfold op_quote
  (repeat' split) <;> simp_all [errFrame]

theorem op_random_dir_errFrame (o : Oracle) (s : State) : errFrame s (op_random_dir o s) :=
  trivial

theorem op_time_errFrame (o : Oracle) (s : State) : errFrame s (op_time o s) :=
  trivial

theorem op_input_errFrame (o : Oracle) (s : State) : errFrame s (op_input o s) := by
  unfold op_input
  split
  · split
    · split <;> simp_all [errFrame]
    · simp_all [errFrame]
  · rcases s.built_in_input
    · simp_all [errFrame]
    · rcases hcb : o.callback s.tick with ⟨_ | ⟨c, crest⟩⟩ | n | _ <;> simp_all [errFrame]
    · simp_all [errFrame]
    · simp_all [errFrame]

theorem op_merge_errFrame (o : Oracle) (s : State) : errFrame s (op_merge o s) := by
  unfold op_merge
  (repeat' split) <;> simp_all [errFrame]

/-- Every handler of the dispatch table satisfies the error-frame property. -/
theorem ops_errFrame (o : Oracle) (s : State) (c : Nat)
    (f : Oracle → State → Except State (OpRes × State)) (hmem : (c, f) ∈ ops) :
    errFrame s (f o s) := by
  simp only [ops, List.mem_cons, Prod.mk.injEq, List.not_mem_nil, or_false] at hmem
  rcases hmem with ⟨_, rfl⟩ | ⟨_, rfl⟩ | ⟨_, rfl⟩ | ⟨_, rfl⟩ | ⟨_, rfl⟩ | ⟨_, rfl⟩ | ⟨_, rfl⟩ | ⟨_, rfl⟩ | ⟨_, rfl⟩ | ⟨_, rfl⟩ | ⟨_, rfl⟩ | ⟨_, rfl⟩ | ⟨_, rfl⟩ | ⟨_, rfl⟩ | ⟨_, rfl⟩ | ⟨_, rfl⟩ | ⟨_, rfl⟩ | ⟨_, rfl⟩ | ⟨_, rfl⟩ | ⟨_, rfl⟩ | ⟨_, rfl⟩ | ⟨_, rfl⟩ | ⟨_, rfl⟩ | ⟨_, rfl⟩ | ⟨_, rfl⟩ | ⟨_, rfl⟩ | ⟨_, rfl⟩ | ⟨_, rfl⟩ | ⟨_, rfl⟩ | ⟨_, rfl⟩ | ⟨_, rfl⟩ | ⟨_, rfl⟩ | ⟨_, rfl⟩ | ⟨_, rfl⟩ | ⟨_, rfl⟩ | ⟨_, rfl⟩ | ⟨_, rfl⟩ | ⟨_, rfl⟩ | ⟨_, rfl⟩ | ⟨_, rfl⟩ | ⟨_, rfl⟩ | ⟨_, rfl⟩ | ⟨_, rfl⟩ | ⟨_, rfl⟩ | ⟨_, rfl⟩ <;>
    first
        | exact op_up_errFrame s
        | exact op_right_errFrame s
        | exact op_left_errFrame s
        | exact op_down_errFrame s
        | exact op_random_dir_errFrame o s
        | exact op_add_errFrame s
        | exact op_sub_errFrame s
        | exact op_mul_errFrame s
        | exact op_div_errFrame s
        | exact op_mod_errFrame s
        | exact op_and_errFrame s
        | exact op_or_errFrame s
        | exact op_xor_errFrame s
        | exact op_not_errFrame s
        | exact op_eq_errFrame s
        | exact op_less_errFrame s
        | exact op_greater_errFrame s
        | exact op_pop_errFrame s
        | exact op_swap_errFrame s
        | exact op_copy_errFrame s
        | exact op_move_to_aux_errFrame s
        | exact op_move_from_aux_errFrame s
        | exact op_rotate_left_errFrame s
        | exact op_rotate_right_errFrame s
        | exact op_len_errFrame s
        | exact op_clear_errFrame s
        | exact op_print_num_errFrame s
        | exact op_print_char_errFrame s
        | exact op_input_errFrame o s
        | exact op_heap_store_errFrame s
        | exact op_heap_load_errFrame s
        | exact op_grid_get_errFrame s
        | exact op_grid_put_errFrame s
        | exact op_jump_errFrame s
        | exact op_func_call_errFrame s
        | exact op_return_errFrame s
        | exact op_merge_errFrame o s
        | exact op_time_errFrame o s
        | exact op_wait_errFrame s
        | exact op_vertical_mirror_errFrame s
        | exact op_horizontal_mirror_errFrame s
        | exact op_mirror_slash_errFrame s
        | exact op_mirror_backslash_errFrame s
        | exact op_exit_errFrame s
        | exact op_quote_errFrame s

/-- An exception escaping a dispatched handler leaves the IP unmoved. -/
theorem execOp_error_frame (o : Oracle) (s : State) (c : Nat) (se : State)
    (he : execOp o s c = some (.error se)) : se.x = s.x ∧ se.y = s.y := by
  unfold execOp at he
  rcases hL : List.lookup c ops with _ | f <;> rw [hL] at he
  · exact absurd he (by simp)
  · injection he with h1
    have hF := ops_errFrame o s c f (lookup_mem hL)
    rw [h1] at hF
    exact hF

/-- Decimal digit characters are not in the dispatch table. -/
theorem execOp_digit (o : Oracle) (s : State) (c : Nat)
    (h1 : 48 ≤ c) (h2 : c ≤ 57) : execOp o s c = none := by
  interval_cases c <;> rfl

/-- C1 (amended): an exception raised inside an opcode handler is caught by
the step (nothing propagates as an exception), but the step is not a silent
no-op: `process_char` reports a halt, the IP does not advance, and the
mutations the handler made before raising persist in the final state. -/
theorem c1_opcode_fault_amended (o : Oracle) (s : State) (c : Nat) (se : State)
    (hs : s.string_mode = false) (hi : s.ignore_mode = false)
    (he : execOp o s c = some (.error se)) :
    process_char o s (some c) = .ok (false, se) ∧ se.x = s.x ∧ se.y = s.y := by
  have hdig : ¬ (48 ≤ c ∧ c ≤ 57) := by
    rintro ⟨hd1, hd2⟩
    rw [execOp_digit o s c hd1 hd2] at he
    exact absurd he (by simp)
  constructor
  · simp [process_char, hs, hi, hdig, he]
  · exact execOp_error_frame o s c se he

/-- Closed instance of `c1_opcode_fault_amended` at the concrete faulting
state: the step halts with the operand already popped and the IP unmoved. -/
theorem c1_opcode_fault_amended_witness :
    process_char oracle0 c1x (some 65) = .ok (false, { c1x with stack := [] })
    ∧ ({ c1x with stack := ([] : List Int) }).x = c1x.x
    ∧ ({ c1x with stack := ([] : List Int) }).y = c1x.y :=
  c1_opcode_fault_amended oracle0 c1x 65 { c1x with stack := [] } rfl rfl rfl

/-- C1 fails as stated: at the concrete faulting state the step does not
continue with a mere IP advance; it halts (and the pop persists). -/
theorem c1_counterexample :
    process_char oracle0 c1x (some 65) = .ok (false, { c1x with stack := [] })
    ∧ process_char oracle0 c1x (some 65) ≠ .ok (true, move c1x) := by
  constructor
  · rfl
  · intro hcon
    have h2 := hcon.symm.trans
      (show process_char oracle0 c1x (some 65) = .ok (false, { c1x with stack := [] }) from rfl)
    injection h2 with h3
    injection h3 with h4 h5
    exact Bool.noConfusion h4

/-- The only error a loop iteration can signal is an uncaught exception. -/
theorem procStep_err (o : Oracle) (s : State) (e : RunErr)
    (h : procStep o s = .error e) : e = .uncaught := by
  unfold procStep at h
  rcases hpg : s.program with _ | g <;> rw [hpg] at h
  · injection h with h1
    exact h1.symm
  · dsimp only at h
    rcases hpc : process_char o s (g.get_item s.x s.y) with e2 | r2 <;> rw [hpc] at h
    · injection h with h1
      exact h1.symm
    · exact absurd h (by simp)

/-- The bounded loop never signals the negative-steps error. -/
theorem runN_err (o : Oracle) : ∀ (n : Nat) (s : State) (e : RunErr),
    runN o n s = .error e → e = .uncaught := by
  intro n
  induction n with
  | zero =>
    intro s e h
    exact absurd h (by simp [runN])
  | succ n ih =>
    intro s e h
    unfold runN at h
    rcases hps : procStep o s with e2 | ⟨b2, s2⟩ <;> rw [hps] at h
    · injection h with h1
      subst h1
      exact procStep_err o s _ hps
    · cases b2
      · exact absurd h (by simp)
      · exact ih s2 e h

/-- The unbounded loop never signals the negative-steps error either. -/
theorem run0_err (o : Oracle) : ∀ (fuel : Nat) (s : State) (e : RunErr),
    run0 o fuel s = some (.error e) → e = .uncaught := by
  intro fuel
  induction fuel with
  | zero =>
    intro s e h
    exact absurd h (by simp [run0])
  | succ n ih =>
    intro s e h
    unfold run0 at h
    rcases hps : procStep o s with e2 | ⟨b2, s2⟩ <;> rw [hps] at h
    · injection h with h1
      injection h1 with h2
      subst h2
      exact procStep_err o s _ hps
    · cases b2
      · exact absurd h (by simp)
      · exact ih s2 e h

/-- The bounded loop returns `false` exactly when a halting step occurs
within its budget. -/
theorem runN_halt_iff (o : Oracle) : ∀ (n : Nat) (s : State) (b : Bool) (s1 : State),
    runN o n s = .ok (b, s1) → (b = false ↔ haltsWithin o n s = true) := by
  intro n
  induction n with
  | zero =>
    intro s b s1 h
    unfold runN at h
    injection h with h1
    injection h1 with h2 h3
    subst h2
    simp [haltsWithin]
  | succ n ih =>
    intro s b s1 h
    unfold runN at h
    unfold haltsWithin
    rcases hps : procStep o s with e2 | ⟨b2, s2⟩ <;> rw [hps] at h
    · exact absurd h (by simp)
    · cases b2
      · injection h with h1
        injection h1 with h2 h3
        subst h2
        simp
      · simpa using ih s2 b s1 h

/-- The unbounded loop can only return by halting. -/
theorem run0_ok_false (o : Oracle) : ∀ (fuel : Nat) (s : State) (b : Bool) (s1 : State),
    run0 o fuel s = some (.ok (b, s1)) → b = false := by
  intro fuel
  induction fuel with
  | zero =>
    intro s b s1 h
    exact absurd h (by simp [run0])
  | succ n ih =>
    intro s b s1 h
    unfold run0 at h
    rcases hps : procStep o s with e2 | ⟨b2, s2⟩ <;> rw [hps] at h
    · exact absurd h (by simp)
    · cases b2
      · injection h with h1
        injection h1 with h2
        injection h2 with h3 h4
        exact h3.symm
      · exact ih s2 b s1 h

/-- C3: `run` raises the negative-steps error iff `steps < 0`; for positive
`steps` it runs the bounded loop, whose boolean result is `false` exactly
when a halt occurred within the budget (`true` otherwise); and `run(0)`
only returns by halting. -/
theorem c3_run_contract (o : Oracle) (steps : Int) (fuel : Nat) (s : State) :
    ((run o steps fuel s = some (.error .invalidArgument)) ↔ steps < 0)
    ∧ (0 < steps → run o steps fuel s = some (runN o steps.toNat s)
        ∧ ∀ (b : Bool) (s1 : State), runN o steps.toNat s = .ok (b, s1) →
            (b = false ↔ haltsWithin o steps.toNat s = true))
    ∧ (∀ (b : Bool) (s1 : State), run o 0 fuel s = some (.ok (b, s1)) → b = false) := by
  refine ⟨⟨?_, ?_⟩, ?_, ?_⟩
  · intro h
    by_contra hneg
    rw [run, if_neg hneg] at h
    by_cases hpos : 0 < steps
    · rw [if_pos hpos] at h
      injection h with h1
      exact absurd (runN_err o steps.toNat s _ h1) (by simp)
    · rw [if_neg hpos] at h
      exact absurd (run0_err o fuel s _ h) (by simp)
  · intro h
    simp [run, h]
  · intro hpos
    have hneg : ¬ steps < 0 := by omega
    exact ⟨by simp [run, hneg, hpos], fun b s1 h => runN_halt_iff o steps.toNat s b s1 h⟩
  · intro b s1 h
    have hz : ¬ (0 : Int) < 0 := by omega
    rw [run, if_neg (by omega), if_neg hz] at h
    exact run0_ok_false o fuel s b s1 h

/-- Closed instance of `c3_run_contract` at `steps = 2` on the program `@`:
the bounded loop is reached and its `false` result coincides with a halt
within the budget. -/
theorem c3_run_contract_witness :
    (run oracle0 2 0 c3w = some (runN oracle0 (2 : Int).toNat c3w))
    ∧ ((false = false) ↔ haltsWithin oracle0 (2 : Int).toNat c3w = true) := by
  have h := (c3_run_contract oracle0 2 0 c3w).2.1 (by decide)
  exact ⟨h.1, h.2 false c3w (by rfl)⟩

end Interpreter

namespace GridMap

/-- Shape of `_ensure_size` on a uniform grid: at least `h` rows (for
non-negative `h`), and every row has length `max cols w.toNat`. -/
theorem ensureSize_spec (g : GridMap) (hu : g.Uniform) (w h : Int)
    (hw : 0 ≤ w) (hh : 0 ≤ h) :
    h.toNat ≤ (g.ensureSize w h).map.length
    ∧ ∀ r ∈ (g.ensureSize w h).map, r.length = max g.width w.toNat := by
  unfold ensureSize
  dsimp only
  set ch := g.map.length with hch
  set cw := g.width with hcw
  set m1 := if (ch : Int) < h then g.map ++ List.replicate (h - ch).toNat (List.replicate cw (none : Cell)) else g.map with hm1
  have hm1len : h.toNat ≤ m1.length := by
    rw [hm1]
    split_ifs with hlt
    · rw [List.length_append, List.length_replicate]
      omega
    · omega
  have hm1rows : ∀ r ∈ m1, r.length = cw := by
    intro r hr
    rw [hm1] at hr
    split_ifs at hr with hlt
    · rcases List.mem_append.mp hr with h1 | h2
      · exact hu r h1
      · rw [List.eq_of_mem_replicate h2]
        exact List.length_replicate _ _
    · exact hu r hr
  constructor
  · split_ifs with hwlt
    · simpa using hm1len
    · simpa using hm1len
  · intro r hr
    split_ifs at hr with hwlt
    · obtain ⟨r0, hr0, rfl⟩ := List.mem_map.mp hr
      rw [List.length_append, List.length_replicate, hm1rows r0 hr0]
      omega
    · rw [hm1rows r hr]
      omega

/-- On a uniform grid, `set_item` at non-negative coordinates succeeds and
the written cell reads back through `get_item`. -/
theorem set_get (g : GridMap) (hu : g.Uniform) (x y : Int)
    (hx : 0 ≤ x) (hy : 0 ≤ y) (cp : Nat) :
    ∃ g1, g.set_item x y cp = .ok g1 ∧ g1.get_item x y = some cp := by
  unfold set_item
  rw [if_neg (by omega)]
  dsimp only
  obtain ⟨hlen, hrows⟩ := ensureSize_spec g hu (x + 1) (y + 1) (by omega) (by omega)
  set g1 := g.ensureSize (x + 1) (y + 1) with hg1
  have hylt : y.toNat < g1.map.length := by
    have hy1 : (y + 1).toNat = y.toNat + 1 := by omega
    omega
  have hget : g1.map.get? y.toNat = some (g1.map.get ⟨y.toNat, hylt⟩) := List.get?_eq_get hylt
  rw [hget]
  dsimp only
  have hrowmem : g1.map.get ⟨y.toNat, hylt⟩ ∈ g1.map := List.get_mem _ _ hylt
  have hxlt : x.toNat < (g1.map.get ⟨y.toNat, hylt⟩).length := by
    have h1 := hrows _ hrowmem
    have hx1 : (x + 1).toNat = x.toNat + 1 := by omega
    have h2 : (x + 1).toNat ≤ max g.width (x + 1).toNat := Nat.le_max_right _ _
    omega
  rw [if_pos hxlt]
  refine ⟨_, rfl, ?_⟩
  unfold get_item
  rw [if_pos ⟨hx, hy⟩]
  have hlen2 : y.toNat < (g1.map.set y.toNat ((g1.map.get ⟨y.toNat, hylt⟩).set x.toNat (some cp))).length := by
    rw [List.length_set]
    exact hylt
  rw [List.get?_eq_getElem?, List.getElem?_set_self (by rw [List.length_set] at hlen2; exact hlen2)]
  dsimp only
  rw [List.get?_eq_getElem?, List.getElem?_set_self hxlt]
  rfl

end GridMap

namespace Interpreter

/-- C6: executing `p` (pop `y`, then `x`, then `val`; write `chr(val)` to the
grid) on a uniform grid at non-negative coordinates with a valid code point
writes the cell, and executing `g` at the same coordinates immediately after
(from any state holding the updated program) pushes exactly the code point
`val` that was just written. -/
theorem c6_put_get_roundtrip (o : Oracle) (s : State) (g : GridMap)
    (yv xv val : Int) (rest : List Int)
    (hs : s.string_mode = false) (hi : s.ignore_mode = false)
    (hp : s.program = some g) (hu : g.Uniform)
    (hx : 0 ≤ xv) (hy : 0 ≤ yv) (hv0 : 0 ≤ val) (hv1 : val ≤ 1114111)
    (hst : s.stack = yv :: xv :: val :: rest) :
    ∃ g1 : GridMap,
      process_char o s (some 112) = .ok (true, move { s with stack := rest, program := some g1 })
      ∧ g1.get_item xv yv = some val.toNat
      ∧ ∀ (o2 : Oracle) (s2 : State) (r2 : List Int),
          s2.string_mode = false → s2.ignore_mode = false →
          s2.program = some g1 → s2.stack = yv :: xv :: r2 →
          process_char o2 s2 (some 103) = .ok (true, move { s2 with stack := val :: r2 }) := by
  obtain ⟨g1, hset, hget⟩ := GridMap.set_get g hu xv yv hx hy val.toNat
  have hchr : pyChr val = some val.toNat := by
    unfold pyChr
    rw [if_pos ⟨hv0, hv1⟩]
  refine ⟨g1, ?_, hget, ?_⟩
  · simp [process_char, hs, hi, execOp, ops, List.lookup, op_grid_put, hst, hp, hchr, hset]
  · intro o2 s2 r2 hs2 hi2 hp2 hst2
    have hcast : ((val.toNat : Nat) : Int) = val := Int.toNat_of_nonneg hv0
    simp [process_char, hs2, hi2, execOp, ops, List.lookup, op_grid_get, hst2, hp2, hget, hcast]

/-- Closed instance of `c6_put_get_roundtrip`: after `p` writes `A` at
`(2, 1)`, a `g` at `(2, 1)` pushes 65. -/
theorem c6_put_get_roundtrip_witness :
    ∃ g1 : GridMap,
      process_char oracle0 c6w (some 112) = .ok (true, move { c6w with stack := [], program := some g1 })
      ∧ g1.get_item 2 1 = some (65 : Int).toNat
      ∧ ∀ (o2 : Oracle) (s2 : State) (r2 : List Int),
          s2.string_mode = false → s2.ignore_mode = false →
          s2.program = some g1 → s2.stack = 1 :: 2 :: r2 →
          process_char o2 s2 (some 103) = .ok (true, move { s2 with stack := 65 :: r2 }) :=
  c6_put_get_roundtrip oracle0 c6w (GridMap.ofRows [[112]]) 1 2 65 []
    rfl rfl rfl (by unfold GridMap.Uniform; decide) (by decide) (by decide) (by decide) (by decide) rfl

end Interpreter
